import Mathlib

/-!
Verification of the shihan-mcp supervision orchestrator.

This file gives a shallow embedding, in Lean 4, of the core of the
shihan-mcp repository (the supervision orchestrator in
`shihan_mcp/agents/watchdog_agent.py`, the text-analysis tools in
`shihan_mcp/tools/log_tail.py`, `creed_audit.py`, `plan_critic.py`,
`pager.py`, and the outermost `supervise_cycle` boundary in
`shihan_mcp/server.py`), and proves properties of the embedded
functions.

External effects (the filesystem, the `tail` subprocess, git, the
Pushover HTTP transport, the scroll-file write) are modelled as
explicit environment values passed to the embedded functions; the
text-analysis computations themselves (regex scans over log and
source text, timestamp arithmetic, score thresholds, branching of the
orchestrator) are translated directly from the Python source.

Python regular expressions used by the source are embedded as
hand-written scanning functions over `List Char`; each carries a doc
comment quoting the regex it implements.  Character classes `\s`, `\w`
and `\d` are modelled at ASCII range, which is exact for all inputs a
claim evaluates.
-/

set_option maxRecDepth 100000

namespace Shihan

/-- Python whitespace (regex `\s`, `str.strip`), ASCII range. -/
def isPySpace (c : Char) : Bool :=
  c = ' ' || c = '\t' || c = '\n' || c = '\r' || c = '\x0b' || c = '\x0c'

/-- Python word character (regex `\w`, used for `\b` boundaries), ASCII range. -/
def isWordChar (c : Char) : Bool :=
  c.isAlpha || c.isDigit || c = '_'

/-- Python `str.strip()`: remove leading and trailing whitespace. -/
def pyStrip (l : List Char) : List Char :=
  ((l.dropWhile isPySpace).reverse.dropWhile isPySpace).reverse

/-- Python truthiness of an `Optional[str]`: `None` and `""` are falsy. -/
def pyTruthy : Option String → Bool
  | none => false
  | some s => s ≠ ""

/-- Does the literal `pat` occur in `cs` starting exactly at index `i`? -/
def subAt (pat cs : List Char) (i : Nat) : Bool :=
  (cs.drop i).take pat.length == pat

/-- Fuel-driven scan for the first occurrence of `pat` at an index `≥ i`. -/
def findFromAux (pat cs : List Char) : Nat → Nat → Option Nat
  | 0, _ => none
  | fuel+1, i =>
    if subAt pat cs i then some i
    else findFromAux pat cs fuel (i+1)

/-- First index `j ≥ i` at which the literal `pat` occurs in `cs`
(the scan a regex engine performs for a literal-prefixed pattern). -/
def findFrom (pat cs : List Char) (i : Nat) : Option Nat :=
  findFromAux pat cs (cs.length + 1 - i) i

/-- Smallest position `p ≥ j` at which the lookahead `(?=\n\n|\Z)` of the
error patterns in `log_tail.py` succeeds: either `"\n\n"` starts at `p`
or `p` is the end of the text.  This is where the non-greedy `.*?`
(with `re.DOTALL`) stops. -/
def blankStopAux (cs : List Char) : Nat → Nat → Nat
  | 0, p => p
  | fuel+1, p =>
    if cs.length ≤ p then cs.length
    else if subAt ['\n', '\n'] cs p then p
    else blankStopAux cs fuel (p+1)

/-- Entry point for `blankStopAux` with sufficient fuel. -/
def blankStop (cs : List Char) (j : Nat) : Nat :=
  blankStopAux cs (cs.length + 1 - j) j

/-- Spans `(start, stop)` produced by `re.finditer` for a pattern of the shape
`pre .*? (?=\n\n|\Z)` with `re.DOTALL` (the shape of all four error
patterns of `LogSentinelTool._find_last_error`): each match starts at an
occurrence of the literal `pre`, extends to the first blank-line
separator or the end of text, and the scan resumes at the match end
(matches do not overlap). -/
def matchesOfAux (pre cs : List Char) : Nat → Nat → List (Nat × Nat)
  | 0, _ => []
  | fuel+1, pos =>
    match findFrom pre cs pos with
    | none => []
    | some i =>
      let e := blankStop cs (i + pre.length)
      (i, e) :: matchesOfAux pre cs fuel e

/-- All finditer spans of the error pattern with literal prefix `pre`. -/
def matchesOf (pre cs : List Char) : List (Nat × Nat) :=
  matchesOfAux pre cs (cs.length + 1) 0

/-- The text of a match span (`match.group(0)`). -/
def matchStr (cs : List Char) (span : Nat × Nat) : String :=
  String.mk ((cs.drop span.1).take (span.2 - span.1))

/-- The literal prefixes of the four error patterns of
`LogSentinelTool._find_last_error`, in source order:
`Traceback (most recent call last):.*?(?=\n\n|\Z)`,
`RuntimeError:.*?(?=\n\n|\Z)`, `AssertionError:.*?(?=\n\n|\Z)`,
`Error:.*?(?=\n\n|\Z)`. -/
def errorPrefixes : List (List Char) :=
  [ "Traceback (most recent call last):".data,
    "RuntimeError:".data,
    "AssertionError:".data,
    "Error:".data ]

/-- The `errors` list of `_find_last_error`: for each pattern in order, all of
its matches in document order (pattern-major collection). -/
def errorsOf (cs : List Char) : List String :=
  errorPrefixes.flatMap (fun pre => (matchesOf pre cs).map (matchStr cs))

/-- `LogSentinelTool._find_last_error`: returns `errors[-1]` if any pattern
matched, else `None`. -/
def find_last_error (cs : List Char) : Option String :=
  (errorsOf cs).getLast?

/-- Shape test for the timestamp regex
`\d{4}-\d{2}-\d{2} \d{2}:\d{2}:\d{2}` on a 19-character window. -/
def tsShape (l : List Char) : Bool :=
  match l with
  | [y1, y2, y3, y4, s1, mo1, mo2, s2, d1, d2, s3, h1, h2, s4, mi1, mi2, s5, se1, se2] =>
    y1.isDigit && y2.isDigit && y3.isDigit && y4.isDigit && s1 = '-' &&
    mo1.isDigit && mo2.isDigit && s2 = '-' && d1.isDigit && d2.isDigit &&
    s3 = ' ' && h1.isDigit && h2.isDigit && s4 = ':' &&
    mi1.isDigit && mi2.isDigit && s5 = ':' && se1.isDigit && se2.isDigit
  | _ => false

/-- `re.findall(timestamp_pattern, log_content)`: leftmost, non-overlapping
scan; on a match the scan resumes after the 19 matched characters. -/
def findTimestampsAux (cs : List Char) : Nat → Nat → List (List Char)
  | 0, _ => []
  | fuel+1, pos =>
    if cs.length ≤ pos then []
    else if tsShape ((cs.drop pos).take 19) then
      ((cs.drop pos).take 19) :: findTimestampsAux cs fuel (pos + 19)
    else findTimestampsAux cs fuel (pos + 1)

/-- All timestamp matches of `LogSentinelTool._compute_runtime`. -/
def findTimestamps (cs : List Char) : List (List Char) :=
  findTimestampsAux cs (cs.length + 1) 0

/-- Numeric value of a digit character. -/
def digitVal (c : Char) : Nat := c.toNat - '0'.toNat

/-- A parsed `datetime` value (year, month, day, hour, minute, second). -/
structure PyDateTime where
  year : Nat
  month : Nat
  day : Nat
  hour : Nat
  minute : Nat
  second : Nat
deriving DecidableEq, Repr

/-- Gregorian leap-year rule (as used by Python `datetime`). -/
def isLeapYear (y : Nat) : Bool :=
  (y % 4 = 0 && y % 100 ≠ 0) || y % 400 = 0

/-- Length of a month in the proleptic Gregorian calendar. -/
def daysInMonth (y m : Nat) : Nat :=
  if m = 2 then (if isLeapYear y then 29 else 28)
  else if m = 4 || m = 6 || m = 9 || m = 11 then 30
  else 31

/-- `datetime.strptime(ts, "%Y-%m-%d %H:%M:%S")` on a window that already
matches `tsShape`: extracts the six fields and raises `ValueError`
(modelled as `none`) unless they form a real calendar datetime —
year ≥ 1, month in 1..12, day in 1..daysInMonth, hour ≤ 23,
minute ≤ 59, second ≤ 59. -/
def strptimeTs (l : List Char) : Option PyDateTime :=
  match l with
  | [y1, y2, y3, y4, _, mo1, mo2, _, d1, d2, _, h1, h2, _, mi1, mi2, _, se1, se2] =>
    let y := 1000 * digitVal y1 + 100 * digitVal y2 + 10 * digitVal y3 + digitVal y4
    let mo := 10 * digitVal mo1 + digitVal mo2
    let d := 10 * digitVal d1 + digitVal d2
    let h := 10 * digitVal h1 + digitVal h2
    let mi := 10 * digitVal mi1 + digitVal mi2
    let se := 10 * digitVal se1 + digitVal se2
    if 1 ≤ y && 1 ≤ mo && mo ≤ 12 && 1 ≤ d && d ≤ daysInMonth y mo &&
       h ≤ 23 && mi ≤ 59 && se ≤ 59 then
      some ⟨y, mo, d, h, mi, se⟩
    else none
  | _ => none

/-- Days in all full years before year `y` (proleptic Gregorian). -/
def daysBeforeYear (y : Nat) : Nat :=
  365 * (y - 1) + (y - 1) / 4 - (y - 1) / 100 + (y - 1) / 400

/-- Days in the full months of year `y` before month `m`. -/
def daysBeforeMonth (y m : Nat) : Nat :=
  ((List.range (m - 1)).map (fun i => daysInMonth y (i + 1))).sum

/-- Absolute second count of a datetime (for `datetime` subtraction). -/
def toSecs (t : PyDateTime) : Nat :=
  (daysBeforeYear t.year + daysBeforeMonth t.year t.month + (t.day - 1)) * 86400 +
    t.hour * 3600 + t.minute * 60 + t.second

/-- `LogSentinelTool._compute_runtime`: extract all timestamps; with fewer
than two report insufficient; parse the first and last (a `ValueError`
reports invalid); otherwise format the `timedelta` exactly as the
source does (`delta.days` is floor division, `delta.seconds` the
nonnegative remainder; the coarsest nonzero unit selects the format).
`timestamps[0]` and `timestamps[-1]` are embedded as `headD`/`getLastD`
with a default that is unreachable under the length guard. -/
def compute_runtime (cs : List Char) : String :=
  let timestamps := findTimestamps cs
  if timestamps.length < 2 then "Unknown (insufficient timestamps)"
  else
    match strptimeTs (timestamps.headD []), strptimeTs (timestamps.getLastD []) with
    | some first, some last =>
      let total : Int := (toSecs last : Int) - (toSecs first : Int)
      let days : Int := total.fdiv 86400
      let secs : Nat := (total.fmod 86400).toNat
      let hours : Nat := secs / 3600
      let remainder : Nat := secs % 3600
      let minutes : Nat := remainder / 60
      let seconds : Nat := remainder % 60
      if 0 < days then
        toString days ++ "d " ++ toString hours ++ "h " ++ toString minutes ++
          "m " ++ toString seconds ++ "s"
      else if 0 < hours then
        toString hours ++ "h " ++ toString minutes ++ "m " ++ toString seconds ++ "s"
      else if 0 < minutes then
        toString minutes ++ "m " ++ toString seconds ++ "s"
      else
        toString seconds ++ "s"
    | _, _ => "Unknown (invalid timestamps)"

/-- Python `str.count(sub)`: non-overlapping occurrence count. -/
def countSubAux (pat cs : List Char) : Nat → Nat → Nat
  | 0, _ => 0
  | fuel+1, pos =>
    if cs.length ≤ pos then 0
    else if subAt pat cs pos then 1 + countSubAux pat cs fuel (pos + pat.length)
    else countSubAux pat cs fuel (pos + 1)

/-- Occurrence count entry point. -/
def countSub (pat cs : List Char) : Nat :=
  countSubAux pat cs (cs.length + 1) 0

/-- Python `str.lower()`, ASCII range. -/
def pyLower (cs : List Char) : List Char :=
  cs.map Char.toLower

/-- `LogSentinelTool._generate_summary`: line count, warning and error
counts, elapsed string, and the last error — truncated to 500
characters (497 + `"..."`) in the summary text only. -/
def generate_summary (cs : List Char) (lastError : Option String) (elapsed : String) : String :=
  let lineCount := cs.count '\n' + 1
  let warningCount := countSub "warning".data (pyLower cs)
  let errorCount := countSub "error".data (pyLower cs) +
    countSub "Traceback".data cs + countSub "Exception".data cs
  let base :=
    "Log Summary (" ++ toString lineCount ++ " lines, runtime: " ++ elapsed ++ "):" ++
    "\n" ++ "- Warnings: " ++ toString warningCount ++
    "\n" ++ "- Errors: " ++ toString errorCount
  if pyTruthy lastError then
    let e := lastError.getD ""
    let e2 := if 500 < e.length then String.mk (e.data.take 497) ++ "..." else e
    base ++ "\n" ++ "- Last error: " ++ e2
  else
    base ++ "\n" ++ "- No errors detected"

/-- Output schema of `LogSentinelTool`. -/
structure LogSentinelOutput where
  summary : String
  last_error : Option String
  elapsed : String
deriving DecidableEq, Repr

/-- `LogSentinelTool._run` on the tailed content (the `tail` subprocess is
modelled by passing its output text): find the last error, compute the
runtime, generate the summary. -/
def log_sentinel_run (tailContent : String) : LogSentinelOutput :=
  let lastError := find_last_error tailContent.data
  let elapsed := compute_runtime tailContent.data
  { summary := generate_summary tailContent.data lastError elapsed,
    last_error := lastError,
    elapsed := elapsed }

/-! ## Creed Auditor (`shihan_mcp/tools/creed_audit.py`)

Each forbidden pattern of `CreedAuditTool.__init__` is embedded as a
Boolean matcher on one line of text (`pattern.search(line) is not None`).
The matchers follow the structure of the regexes; where a non-greedy
`.*?` or a `\s+`/`\s*` run admits a simpler equivalent for match
existence (because the following token cannot match the absorbed
characters), the equivalent scan is used and noted. -/

/-- Consume the literal `lit` from the front of a text, or fail. -/
def dropLit : List Char → List Char → Option (List Char)
  | [], cs => some cs
  | _ :: _, [] => none
  | l :: ls, c :: cs => if c = l then dropLit ls cs else none

/-- Does the text start with the literal? -/
def startsLit (lit cs : List Char) : Bool :=
  (dropLit lit cs).isSome

/-- Consume `\s+` followed by a token that cannot match whitespace:
one mandatory whitespace character, then every following one. -/
def dropSpaces1 : List Char → Option (List Char)
  | [] => none
  | c :: cs => if isPySpace c then some (cs.dropWhile isPySpace) else none

/-- A `\b` boundary before a word character: the previous character
(`none` at the start of the text) is not a word character. -/
def boundaryBefore : Option Char → Bool
  | none => true
  | some c => !isWordChar c

/-- A `\b` boundary after a word character: the next character
(if any) is not a word character. -/
def boundaryAt : List Char → Bool
  | [] => true
  | c :: _ => !isWordChar c

/-- Does `p` hold at some suffix, tracking the preceding character
(the scan `re.search` performs, with `\b` context)? -/
def searchB (p : Option Char → List Char → Bool) : Option Char → List Char → Bool
  | prev, [] => p prev []
  | prev, c :: cs => p prev (c :: cs) || searchB p (some c) cs

/-- Does `p` hold at some suffix (the scan `re.search` performs)? -/
def searchSuffix (p : List Char → Bool) : List Char → Bool
  | [] => p []
  | c :: cs => p (c :: cs) || searchSuffix p cs

/-- Apply a check to the remainder of a partial match, failing if the
partial match already failed. -/
def checkTail (f : List Char → Bool) : Option (List Char) → Bool
  | none => false
  | some r => f r

/-- Regex `\bis\s+None\b` (rule `is_none`). -/
def matchIsNone (line : List Char) : Bool :=
  searchB (fun prev s =>
    boundaryBefore prev &&
    checkTail boundaryAt
      ((dropLit "is".data s).bind (fun r => (dropSpaces1 r).bind (dropLit "None".data))))
    none line

/-- Regex `\bis\s+not\s+None\b` (rule `is_not_none`). -/
def matchIsNotNone (line : List Char) : Bool :=
  searchB (fun prev s =>
    boundaryBefore prev &&
    checkTail boundaryAt
      ((dropLit "is".data s).bind (fun r => (dropSpaces1 r).bind
        (fun r2 => (dropLit "not".data r2).bind (fun r3 => (dropSpaces1 r3).bind
          (dropLit "None".data))))))
    none line

/-- Regex `\*\*kwargs` (rule `kwargs`): a literal substring. -/
def matchKwargs (line : List Char) : Bool :=
  searchSuffix (startsLit "**kwargs".data) line

/-- Regex `\bmock\b|\bMagicMock\b` (rule `mock`). -/
def matchMock (line : List Char) : Bool :=
  searchB (fun prev s =>
    boundaryBefore prev &&
    (checkTail boundaryAt (dropLit "mock".data s) ||
     checkTail boundaryAt (dropLit "MagicMock".data s)))
    none line

/-- Inner scan for `is\s+None` without boundaries (tail of the
`if_none_fallback` regex). -/
def hasIsSpNone (cs : List Char) : Bool :=
  searchSuffix (fun s =>
    ((dropLit "is".data s).bind (fun r => (dropSpaces1 r).bind (dropLit "None".data))).isSome) cs

/-- Regex `if\s+.*?is\s+None` (rule `if_none_fallback`): a match exists
iff `"if"` occurs followed by one whitespace character (further
whitespace is absorbed by `.*?`) with `is\s+None` somewhere after. -/
def matchIfNoneFallback (line : List Char) : Bool :=
  searchSuffix (fun s =>
    match dropLit "if".data s with
    | some (c :: rest) => isPySpace c && hasIsSpNone rest
    | _ => false) line

/-- Regex `\bhasattr\b` (rule `hasattr`). -/
def matchHasattr (line : List Char) : Bool :=
  searchB (fun prev s =>
    boundaryBefore prev && checkTail boundaryAt (dropLit "hasattr".data s))
    none line

/-- Tail scan for `:(\s*)pass` of the `silent_exception` regex: a colon
whose following whitespace run is immediately followed by `pass`
(`\s*` cannot stop inside the run, because `p` is not whitespace). -/
def hasColonSpPass (cs : List Char) : Bool :=
  searchSuffix (fun s =>
    match s with
    | ':' :: rest => startsLit "pass".data (rest.dropWhile isPySpace)
    | _ => false) cs

/-- Regex `except.*?:(\s*)pass` (rule `silent_exception`). -/
def matchSilentException (line : List Char) : Bool :=
  searchSuffix (fun s =>
    checkTail hasColonSpPass (dropLit "except".data s)) line

/-- Regex `torch\.tensor\(.*?\).*?(?!\S)` (rule `unused_tensor`): a match
exists iff `"torch.tensor("` occurs with some `)` after it — the
trailing `.*?(?!\S)` always succeeds at the end of the line. -/
def matchUnusedTensor (line : List Char) : Bool :=
  searchSuffix (fun s =>
    checkTail
      (searchSuffix (fun t =>
        match t with
        | ')' :: _ => true
        | _ => false))
      (dropLit "torch.tensor(".data s)) line

/-- Tail check for `return\s+0` of the `fallback_pattern` regex: at least
one whitespace character after `return`, whose run is immediately
followed by `0`. -/
def afterReturnZero : List Char → Bool
  | [] => false
  | c :: rest =>
    isPySpace c &&
    (match rest.dropWhile isPySpace with
     | '0' :: _ => true
     | _ => false)

/-- Regex `if\s+.*?:\s*.*?\s*else\s*.*?return\s+0` (rule
`fallback_pattern`): the `\s*`/`.*?` runs between the anchors absorb
arbitrary characters, so a match exists iff `"if"` + whitespace, a
later `:`, a later `else`, and a later `return` + whitespace + `0`
occur in this order. -/
def matchFallbackPattern (line : List Char) : Bool :=
  searchSuffix (fun s =>
    match dropLit "if".data s with
    | some (c :: rest) =>
      isPySpace c &&
      searchSuffix (fun u =>
        match u with
        | ':' :: rest2 =>
          searchSuffix (fun v =>
            checkTail
              (searchSuffix (fun w =>
                checkTail afterReturnZero (dropLit "return".data w)))
              (dropLit "else".data v)) rest2
        | _ => false) rest
    | _ => false) line

/-- The `forbidden_patterns` table of `CreedAuditTool.__init__`,
in source (= dict insertion) order. -/
def forbidden_patterns : List (String × (List Char → Bool)) :=
  [ ("is_none", matchIsNone),
    ("is_not_none", matchIsNotNone),
    ("kwargs", matchKwargs),
    ("mock", matchMock),
    ("if_none_fallback", matchIfNoneFallback),
    ("hasattr", matchHasattr),
    ("silent_exception", matchSilentException),
    ("unused_tensor", matchUnusedTensor),
    ("fallback_pattern", matchFallbackPattern) ]

/-- The `pattern_descriptions` table of `CreedAuditTool._format_violation`
(with its default). -/
def patternDescription (nm : String) : String :=
  if nm = "is_none" then "Using \x27is None\x27 check (forbidden by Creed)"
  else if nm = "is_not_none" then "Using \x27is not None\x27 check (forbidden by Creed)"
  else if nm = "kwargs" then "Using \x27**kwargs\x27 (forbidden by Creed)"
  else if nm = "mock" then "Using mock objects (forbidden by Creed)"
  else if nm = "if_none_fallback" then "Using None fallback pattern (forbidden by Creed)"
  else if nm = "hasattr" then "Using hasattr() (forbidden by Creed)"
  else if nm = "silent_exception" then "Silent exception handling (forbidden by Creed)"
  else if nm = "unused_tensor" then "Potentially unused tensor (forbidden by Creed)"
  else if nm = "fallback_pattern" then "Using fallback pattern (forbidden by Creed)"
  else "Violation of " ++ nm

/-- `CreedAuditTool._format_violation`: the line is truncated to 47
characters plus `"..."` when longer than 50, then stripped. -/
def format_violation (filePath : String) (lineNum : Nat) (line : List Char) (nm : String) : String :=
  let l2 := if 50 < line.length then line.take 47 ++ "...".data else line
  filePath ++ ":" ++ toString lineNum ++ ": " ++ patternDescription nm ++
    "\n" ++ "  " ++ String.mk (pyStrip l2)

/-- Is the stripped line a comment (`line.strip().startswith('#')`)? -/
def isCommentLine (line : List Char) : Bool :=
  match pyStrip line with
  | '#' :: _ => true
  | _ => false

/-- Python `content.split('\n')` on a character list: always at least one
piece; a trailing newline yields a trailing empty piece. -/
def splitOnNewline : List Char → List (List Char)
  | [] => [[]]
  | c :: cs =>
    if c = '\n' then [] :: splitOnNewline cs
    else
      match splitOnNewline cs with
      | [] => [[c]]
      | l :: ls => (c :: l) :: ls

/-- The lines of a file content (`content.split('\n')`). -/
def splitLines (content : String) : List (List Char) :=
  splitOnNewline content.data

/-- One record emitted by the audit scan: file, 1-based line number,
rule identifier, and the formatted message appended to `violations`. -/
structure ViolationRecord where
  file : String
  line : Nat
  ruleId : String
  message : String
deriving DecidableEq, Repr

/-- `CreedAuditTool._check_violations` as the source writes it: iterate
the rules, then the enumerated lines; a qualifying (rule, line) pair —
pattern found, stripped line not a comment — appends one formatted
message. -/
def check_violations (filePath : String) (content : String) : List String :=
  let lines := splitLines content
  forbidden_patterns.foldl
    (fun acc pr =>
      lines.enum.foldl
        (fun acc2 il =>
          if pr.2 il.2 && !isCommentLine il.2 then
            acc2 ++ [format_violation filePath (il.1 + 1) il.2 pr.1]
          else acc2)
        acc)
    []

/-- The same scan, keeping the rule identifier and line number of each
emitted message as a `ViolationRecord`. -/
def checkRecords (filePath : String) (content : String) : List ViolationRecord :=
  let lines := splitLines content
  forbidden_patterns.foldl
    (fun acc pr =>
      lines.enum.foldl
        (fun acc2 il =>
          if pr.2 il.2 && !isCommentLine il.2 then
            acc2 ++ [⟨filePath, il.1 + 1, pr.1, format_violation filePath (il.1 + 1) il.2 pr.1⟩]
          else acc2)
        acc)
    []

/-! ## Filesystem model

Reads performed by the tools (`os.path.exists` + `open().read()`) are
modelled by a function from path to one of: the file is absent, the
read raises (with a message), or the read returns the content. -/

/-- Result of looking up a path on the modelled filesystem. -/
inductive FileResult where
  | absent
  | readError (msg : String)
  | content (text : String)
deriving DecidableEq, Repr

/-- Python `str.endswith` on character lists. -/
def pyEndsWith (l suf : List Char) : Bool :=
  startsLit suf.reverse l.reverse

/-- Recognized source extensions (`file_path.endswith(('.py', '.pyx', '.pyi'))`). -/
def isPySource (fp : String) : Bool :=
  pyEndsWith fp.data ".py".data || pyEndsWith fp.data ".pyx".data ||
    pyEndsWith fp.data ".pyi".data

/-- `CreedAuditTool._run` for one file of the input list: a missing file
emits a synthetic violation, a non-Python file is skipped silently, a
failing read emits a read-error violation, and otherwise the content
is scanned. -/
def auditOne (fs : String → FileResult) (fp : String) : List String :=
  match fs fp with
  | .absent => ["File not found: " ++ fp]
  | .readError m => if isPySource fp then ["Error reading " ++ fp ++ ": " ++ m] else []
  | .content text => if isPySource fp then check_violations fp text else []

/-- `CreedAuditTool._run`: concatenate the per-file results in input order. -/
def creed_audit_run (fs : String → FileResult) (files : List String) : List String :=
  files.flatMap (auditOne fs)

/-! ## Proposal Critic (`shihan_mcp/tools/plan_critic.py`) -/

/-- Output schema of `PlanCriticTool` (`CritiqueResult` of the spec). -/
structure PlanCriticOutput where
  score : Nat
  issues : List String
deriving DecidableEq, Repr

/-- Python substring test `pat in hay`. -/
def containsSub (hay pat : String) : Bool :=
  searchSuffix (startsLit pat.data) hay.data

/-- `PlanCriticTool._critique_with_llm`: the deterministic critique
heuristic — canned score/issue pairs selected by content signals on
the lowercased scroll. -/
def critique_with_llm (scrollContent : String) : PlanCriticOutput :=
  let lower := String.mk (pyLower scrollContent.data)
  if containsSub lower "multiple issues" || containsSub lower "several issues" then
    { score := 45,
      issues :=
        [ "The plan attempts to fix multiple unrelated issues at once instead of focusing on one specific problem",
          "The diagnosis lacks specific details about how each issue was identified",
          "No evidence or logs are provided to support the diagnosis",
          "The relationship between the issues is not explained - are they connected or independent?",
          "Addressing multiple issues at once increases complexity and risk",
          "No explanation for why the learning rate should be 0.001 instead of 0.1",
          "The memory leak fix assumes \x27del batch\x27 is sufficient without investigating root cause",
          "Testing plan is extremely vague - just \x27run the script and check\x27",
          "No specific metrics or criteria for determining if fixes worked",
          "No separate tests for each individual issue",
          "No consideration of edge cases",
          "No regression testing plan to ensure other functionality isn\x27t broken",
          "The plan violates the single responsibility principle by tackling multiple issues at once",
          "Lacks detailed analysis of each problem before proposing solutions",
          "Testing approach is inadequate and lacks specificity",
          "No explanation of how to verify each fix independently",
          "No rollback strategy if any of the changes cause new problems" ] }
  else if containsSub lower "cuda out of memory" || containsSub lower "oom" then
    { score := 85,
      issues :=
        [ "Could provide more specific metrics to verify the fix works",
          "Consider adding a test for edge cases with very large inputs",
          "Consider explaining why gradient accumulation is better than other approaches" ] }
  else
    { score := 70,
      issues :=
        [ "The plan could be more specific about the problem being addressed",
          "Testing methodology could be more comprehensive",
          "Consider adding more details about how to verify the fix works" ] }

/-- `PlanCriticTool._run`: a missing scroll scores 0 with one issue, a
failing read scores 0 with one issue, otherwise the heuristic critique
of the content is returned. -/
def plan_critic_run (fs : String → FileResult) (scrollPath : String) : PlanCriticOutput :=
  match fs scrollPath with
  | .absent => { score := 0, issues := ["Scroll not found: " ++ scrollPath] }
  | .readError m => { score := 0, issues := ["Error reading scroll: " ++ m] }
  | .content text => critique_with_llm text

/-! ## Notifier (`shihan_mcp/tools/pager.py`) -/

/-- Input schema of `PagerTool`. -/
structure PagerCall where
  title : String
  body : String
  priority : Nat
deriving DecidableEq, Repr

/-- Output schema of `PagerTool` (`NotificationOutcome` of the spec:
`delivered` is `status = "success"`, `channel` is `method`). -/
structure PagerOutput where
  status : String
  method : String
deriving DecidableEq, Repr

/-- Environment of one `PagerTool` invocation: the two Pushover
credential variables (`os.getenv` yields `None` when unset), whether
the Pushover POST would return HTTP 200 (exceptions and non-200 are
one failure case), and whether the fallback scroll write would
succeed. -/
structure PagerEnv where
  userKey : Option String
  apiToken : Option String
  postOk : Bool
  scrollOk : Bool
deriving DecidableEq, Repr

/-- Are the primary-channel credentials configured
(`if not user_key or not api_token: return False`)? -/
def pushoverCredsPresent (env : PagerEnv) : Bool :=
  pyTruthy env.userKey && pyTruthy env.apiToken

/-- `PagerTool._send_pushover`: absent credentials fail immediately;
otherwise success is the transport outcome (network errors caught as
failure). -/
def send_pushover (env : PagerEnv) (_title _message : String) (_priority : Nat) : Bool :=
  if !pushoverCredsPresent env then false
  else env.postOk

/-- `PagerTool._create_ninjascroll`: the timestamped fallback scroll
write, modelled by its success bit (any raise is caught as failure). -/
def create_ninjascroll (env : PagerEnv) (_title _body : String) : Bool :=
  env.scrollOk

/-- `PagerTool._run`: primary channel first, fallback second, both
failing yields `{status: "failure", method: "none"}`. -/
def pager_run (env : PagerEnv) (inp : PagerCall) : PagerOutput :=
  if send_pushover env inp.title inp.body inp.priority then
    { status := "success", method := "pushover" }
  else if create_ninjascroll env inp.title inp.body then
    { status := "success", method := "ninjascroll" }
  else
    { status := "failure", method := "none" }

/-! ## Supervision Orchestrator (`shihan_mcp/agents/watchdog_agent.py`)

The agent's collaborators are one environment value: the tailed log
text (the `tail` subprocess of `LogSentinelTool`), the changed-file
list (`git diff --name-only HEAD`, already filtered to Python files),
the filesystem, the pager environment, and the most recently modified
scroll (`_get_latest_scroll`).  Each handler is embedded together with
an instrumentation trace of the component calls it makes, so that
call-counting properties can be stated; the `WatchOutput` the source
returns is the projection that forgets the trace. -/

/-- Environment of one `WatchdogAgent` run. -/
structure AgentEnv where
  logTail : String
  changedFiles : List String
  fs : String → FileResult
  pager : PagerEnv
  latestScroll : Option String

/-- Input schema of `WatchdogAgent` (`WatchInput`): the event literal
is validated upstream by pydantic; `run` itself compares strings. -/
structure WatchInput where
  event : String
  scroll_path : Option String
deriving DecidableEq, Repr

/-- Output schema of `WatchdogAgent` (`WatchOutput`; the spec's
`SupervisionReport`). -/
structure WatchOutput where
  status : String
  actions_taken : List String
  issues_found : List String
  paged : Bool
deriving DecidableEq, Repr

/-- Result of a handler, together with the instrumentation trace:
every pager invocation with its outcome, every file list passed to the
creed audit, every scroll path passed to the plan critic, and the
number of log-sentinel invocations. -/
structure HandlerResult where
  actions : List String
  issues : List String
  paged : Bool
  pagerCalls : List (PagerCall × PagerOutput)
  auditCalls : List (List String)
  criticCalls : List String
  logCalls : Nat
deriving Repr

/-- `WatchdogAgent._handle_cycle_end`: check the log; on a (truthy) last
error page once with priority 1; otherwise audit the changed files, if
any, and page once on violations. -/
def handle_cycle_end (env : AgentEnv) : HandlerResult :=
  let lastError := find_last_error env.logTail.data
  if pyTruthy lastError then
    let e := lastError.getD ""
    let call : PagerCall :=
      { title := "Error detected in training log",
        body := "Shihan has detected an error in the training log:\n\n" ++ e,
        priority := 1 }
    let res := pager_run env.pager call
    if res.status = "success" then
      { actions := ["Checking log for errors", "Paging Hayato about log error",
                    "Paged successfully via " ++ res.method],
        issues := ["Error found in log: " ++ e],
        paged := true, pagerCalls := [(call, res)], auditCalls := [], criticCalls := [],
        logCalls := 1 }
    else
      { actions := ["Checking log for errors", "Paging Hayato about log error"],
        issues := ["Error found in log: " ++ e, "Failed to page Hayato"],
        paged := false, pagerCalls := [(call, res)], auditCalls := [], criticCalls := [],
        logCalls := 1 }
  else
    if env.changedFiles.isEmpty then
      { actions := ["Checking log for errors",
                    "No errors found in log, checking for changed files",
                    "No changed files found"],
        issues := [], paged := false, pagerCalls := [], auditCalls := [], criticCalls := [],
        logCalls := 1 }
    else
      let violations := creed_audit_run env.fs env.changedFiles
      if violations.isEmpty then
        { actions := ["Checking log for errors",
                      "No errors found in log, checking for changed files",
                      "Auditing " ++ toString env.changedFiles.length ++ " changed files",
                      "No creed violations found"],
          issues := [], paged := false, pagerCalls := [], auditCalls := [env.changedFiles],
          criticCalls := [], logCalls := 1 }
      else
        let call : PagerCall :=
          { title := "Creed violations detected",
            body := "Shihan has detected " ++ toString violations.length ++
              " creed violations:\n\n" ++ String.intercalate "\n" violations,
            priority := 1 }
        let res := pager_run env.pager call
        if res.status = "success" then
          { actions := ["Checking log for errors",
                        "No errors found in log, checking for changed files",
                        "Auditing " ++ toString env.changedFiles.length ++ " changed files",
                        "Paging Hayato about creed violations",
                        "Paged successfully via " ++ res.method],
            issues := violations,
            paged := true, pagerCalls := [(call, res)], auditCalls := [env.changedFiles],
            criticCalls := [], logCalls := 1 }
        else
          { actions := ["Checking log for errors",
                        "No errors found in log, checking for changed files",
                        "Auditing " ++ toString env.changedFiles.length ++ " changed files",
                        "Paging Hayato about creed violations"],
            issues := violations ++ ["Failed to page Hayato"],
            paged := false, pagerCalls := [(call, res)], auditCalls := [env.changedFiles],
            criticCalls := [], logCalls := 1 }

/-- `WatchdogAgent._handle_scroll_committed`: critique the scroll; below
the threshold 80 record the score and the issues and page once;
otherwise record acceptance. -/
def handle_scroll_committed (env : AgentEnv) (scrollPath : String) : HandlerResult :=
  let cr := plan_critic_run env.fs scrollPath
  if cr.score < 80 then
    let call : PagerCall :=
      { title := "Plan critique: " ++ toString cr.score ++ "/100",
        body := "Shihan has critiqued your plan and found issues:\n\n" ++
          String.intercalate "\n" cr.issues,
        priority := 1 }
    let res := pager_run env.pager call
    if res.status = "success" then
      { actions := ["Critiquing plan: " ++ scrollPath,
                    "Paging Hayato about low plan score",
                    "Paged successfully via " ++ res.method],
        issues := ("Plan score is below threshold: " ++ toString cr.score ++ "/100") :: cr.issues,
        paged := true, pagerCalls := [(call, res)], auditCalls := [],
        criticCalls := [scrollPath], logCalls := 0 }
    else
      { actions := ["Critiquing plan: " ++ scrollPath,
                    "Paging Hayato about low plan score"],
        issues := (("Plan score is below threshold: " ++ toString cr.score ++ "/100") :: cr.issues)
          ++ ["Failed to page Hayato"],
        paged := false, pagerCalls := [(call, res)], auditCalls := [],
        criticCalls := [scrollPath], logCalls := 0 }
  else
    { actions := ["Critiquing plan: " ++ scrollPath,
                  "Plan score is acceptable: " ++ toString cr.score ++ "/100"],
      issues := [], paged := false, pagerCalls := [], auditCalls := [],
      criticCalls := [scrollPath], logCalls := 0 }

/-- `WatchdogAgent._handle_manual_check`: run the cycle-end logic, then —
if a (truthy) latest scroll exists — the scroll-committed logic on it;
`paged` is the disjunction of the two sub-results. -/
def handle_manual_check (env : AgentEnv) : HandlerResult :=
  let c := handle_cycle_end env
  if pyTruthy env.latestScroll then
    let ls := env.latestScroll.getD ""
    let s := handle_scroll_committed env ls
    { actions := c.actions ++ ["Found latest scroll: " ++ ls] ++ s.actions,
      issues := c.issues ++ s.issues,
      paged := c.paged || s.paged,
      pagerCalls := c.pagerCalls ++ s.pagerCalls,
      auditCalls := c.auditCalls ++ s.auditCalls,
      criticCalls := c.criticCalls ++ s.criticCalls,
      logCalls := c.logCalls + s.logCalls }
  else
    { actions := c.actions ++ ["No recent scrolls found"],
      issues := c.issues, paged := c.paged, pagerCalls := c.pagerCalls,
      auditCalls := c.auditCalls, criticCalls := c.criticCalls, logCalls := c.logCalls }

/-- The handler result of an event no branch of `WatchdogAgent.run`
accepts: nothing happens. -/
def emptyHandlerResult : HandlerResult :=
  { actions := [], issues := [], paged := false,
    pagerCalls := [], auditCalls := [], criticCalls := [], logCalls := 0 }

/-- `WatchdogAgent.run` with its instrumentation trace: dispatch on the
event; the `scroll_committed` branch additionally requires a truthy
`scroll_path`. -/
def agentRunT (env : AgentEnv) (inp : WatchInput) : HandlerResult :=
  if inp.event = "cycle_end" then
    handle_cycle_end env
  else if inp.event = "scroll_committed" && pyTruthy inp.scroll_path then
    handle_scroll_committed env (inp.scroll_path.getD "")
  else if inp.event = "manual_check" then
    handle_manual_check env
  else
    emptyHandlerResult

/-- `WatchdogAgent.run`: the returned `WatchOutput` always carries status
`"completed"` and the accumulated actions, issues and paged flag. -/
def agent_run (env : AgentEnv) (inp : WatchInput) : WatchOutput :=
  let r := agentRunT env inp
  { status := "completed", actions_taken := r.actions, issues_found := r.issues,
    paged := r.paged }

/-! ## Server boundary (`shihan_mcp/server.py`, `supervise_cycle`) -/

/-- The raw argument dictionary of the `supervise_cycle` MCP tool
(before pydantic validation). -/
structure RawArgs where
  event : String
  scroll_path : Option String
deriving DecidableEq, Repr

/-- Is the event one of the three `WatchInput` literals? -/
def validEvent (e : String) : Bool :=
  e = "cycle_end" || e = "manual_check" || e = "scroll_committed"

/-- Construction of `WatchInput(**args)`: pydantic accepts the three
event literals and otherwise raises a `ValidationError` (whose message
is modelled; only its propagation matters to the claims). -/
def parseWatchInput (args : RawArgs) : Except String WatchInput :=
  if validEvent args.event then
    .ok { event := args.event, scroll_path := args.scroll_path }
  else
    .error ("1 validation error for WatchInput: event must be one of " ++
      "cycle_end, manual_check, scroll_committed")

/-- `supervise_cycle` of `server.py`: the outermost boundary. A
successful agent run is returned as the report; any raise inside the
`try` — in particular a `ValidationError` from `WatchInput(**args)` —
is caught and converted into a report with status `"error"`, empty
actions, the fault message folded into `issues_found`, and
`paged = False`. -/
def supervise_cycle (env : AgentEnv) (args : RawArgs) : WatchOutput :=
  match parseWatchInput args with
  | .ok wi => agent_run env wi
  | .error e =>
    { status := "error", actions_taken := [],
      issues_found := ["Internal error: " ++ e], paged := false }

/-! ## Theorems -/

/-- A minimal concrete environment (empty log, no changed files, empty
filesystem, no credentials, failing scroll write, no latest scroll),
used to instantiate universally quantified theorems. -/
def trivialEnv : AgentEnv :=
  { logTail := "", changedFiles := [], fs := fun _ => .absent,
    pager := { userKey := none, apiToken := none, postOk := false, scrollOk := false },
    latestScroll := none }

/-- A concrete environment whose log tail ends in an error and whose
fallback scroll write succeeds. -/
def logErrorEnv : AgentEnv :=
  { logTail := "Error: boom", changedFiles := [], fs := fun _ => .absent,
    pager := { userKey := none, apiToken := none, postOk := false, scrollOk := true },
    latestScroll := none }

/-- A concrete environment with a latest scroll present and a working
fallback scroll write. -/
def manualEnv : AgentEnv :=
  { logTail := "", changedFiles := [], fs := fun _ => .absent,
    pager := { userKey := none, apiToken := none, postOk := false, scrollOk := true },
    latestScroll := some "s.md" }

/-- C10: an event of kind `scroll_committed` with no scroll path supplied
falls through every branch of `WatchdogAgent.run`: no component is
invoked and the report is `completed` with empty actions, empty
issues, and `paged = false`. -/
theorem scroll_committed_without_path_is_noop :
    ∀ env : AgentEnv,
      agent_run env { event := "scroll_committed", scroll_path := none } =
        { status := "completed", actions_taken := [], issues_found := [], paged := false }
      ∧ agentRunT env { event := "scroll_committed", scroll_path := none } =
          emptyHandlerResult := by
  intro env
  constructor <;> rfl

/-- C4: if the primary-channel credentials are absent the outcome's
channel is never `pushover`, and a delivered outcome can only have come
through the `ninjascroll` fallback; the channel is `none` exactly when
both the primary send and the fallback write fail, and then the status
is `failure`. -/
theorem pager_channel_properties :
    ∀ (env : PagerEnv) (inp : PagerCall),
      (pushoverCredsPresent env = false →
        (pager_run env inp).method ≠ "pushover" ∧
        ((pager_run env inp).status = "success" → (pager_run env inp).method = "ninjascroll"))
      ∧ ((pager_run env inp).method = "none" ↔
          send_pushover env inp.title inp.body inp.priority = false ∧
          create_ninjascroll env inp.title inp.body = false)
      ∧ ((pager_run env inp).method = "none" → (pager_run env inp).status = "failure") := by
  intro env inp
  unfold pager_run send_pushover create_ninjascroll
  by_cases h1 : pushoverCredsPresent env <;>
    by_cases h2 : env.postOk <;>
      by_cases h3 : env.scrollOk <;>
        simp_all

/-- Witness for C4 at a concrete environment with absent credentials. -/
theorem pager_channel_properties_witness :
    (pager_run { userKey := none, apiToken := none, postOk := true, scrollOk := true }
        { title := "t", body := "b", priority := 1 }).method ≠ "pushover" ∧
    ((pager_run { userKey := none, apiToken := none, postOk := true, scrollOk := true }
        { title := "t", body := "b", priority := 1 }).status = "success" →
      (pager_run { userKey := none, apiToken := none, postOk := true, scrollOk := true }
        { title := "t", body := "b", priority := 1 }).method = "ninjascroll") :=
  (pager_channel_properties
    { userKey := none, apiToken := none, postOk := true, scrollOk := true }
    { title := "t", body := "b", priority := 1 }).1 (by decide)

/-- The file content of Scenario 3: line 5 is `if x is None:`, the four
lines before it are innocuous. -/
def scenario3File : String :=
  "a = 1\nb = 2\nc = 3\nd = 4\nif x is None:"

/-- The same file with line 5 written as a comment. -/
def scenario3FileCommented : String :=
  "a = 1\nb = 2\nc = 3\nd = 4\n# if x is None:"

/-- C8: auditing `scenario3File` emits exactly one record for the
`is_none` rule, at line 5; auditing the commented variant emits no
record for any rule (a rule matches a line only when its pattern is
found in it and the stripped line does not begin with `#`). -/
theorem scenario3_audit :
    ((checkRecords "test.py" scenario3File).filter
        (fun r => r.ruleId == "is_none")).map (fun r => r.line) = [5]
    ∧ checkRecords "test.py" scenario3FileCommented = [] := by
  constructor <;> rfl

/-- C1: the supervise boundary is total — every call returns a complete
report whose status is `completed` or `error`; a successful parse
yields the agent's report (whose status is always `completed`), and a
validation fault is caught and converted into a report with status
`error` whose fault message appears in `issues_found`. -/
theorem supervise_boundary_total :
    ∀ (env : AgentEnv) (args : RawArgs),
      ((supervise_cycle env args).status = "completed" ∨
        (supervise_cycle env args).status = "error")
      ∧ (∀ wi, parseWatchInput args = .ok wi →
          supervise_cycle env args = agent_run env wi ∧
          (supervise_cycle env args).status = "completed")
      ∧ (∀ e, parseWatchInput args = .error e →
          (supervise_cycle env args).status = "error" ∧
          (supervise_cycle env args).issues_found = ["Internal error: " ++ e]) := by
  intro env args
  cases hp : parseWatchInput args <;>
    simp [supervise_cycle, hp, agent_run]

/-- Witness for C1 at an invalid event string. -/
theorem supervise_boundary_total_witness :
    (supervise_cycle trivialEnv { event := "bogus", scroll_path := none }).status = "error" ∧
    (supervise_cycle trivialEnv { event := "bogus", scroll_path := none }).issues_found =
      ["Internal error: " ++
        ("1 validation error for WatchInput: event must be one of " ++
          "cycle_end, manual_check, scroll_committed")] :=
  (supervise_boundary_total trivialEnv { event := "bogus", scroll_path := none }).2.2 _ rfl

/-- The critic's score is one of the four canned values, hence at most 100. -/
lemma plan_critic_score_le (fs : String → FileResult) (p : String) :
    (plan_critic_run fs p).score ≤ 100 := by
  cases h : fs p with
  | absent => simp [plan_critic_run, h]
  | readError m => simp [plan_critic_run, h]
  | content text =>
    simp only [plan_critic_run, h, critique_with_llm]
    split
    · simp
    · split <;> simp

/-- C5: the critic's score is always in [0,100] (it is a `Nat`, so the
lower bound is inherent); a missing or unreadable document scores 0
with a single describing issue; and the score is below 80 exactly when
the scroll-committed handler records a non-empty issue list. -/
theorem critic_score_range_and_threshold :
    ∀ (env : AgentEnv) (path : String),
      (plan_critic_run env.fs path).score ≤ 100
      ∧ (env.fs path = .absent →
          (plan_critic_run env.fs path).score = 0 ∧
          (plan_critic_run env.fs path).issues.length = 1)
      ∧ (∀ m, env.fs path = .readError m →
          (plan_critic_run env.fs path).score = 0 ∧
          (plan_critic_run env.fs path).issues.length = 1)
      ∧ ((plan_critic_run env.fs path).score < 80 ↔
          (handle_scroll_committed env path).issues ≠ []) := by
  intro env path
  refine ⟨plan_critic_score_le env.fs path, ?_, ?_, ?_⟩
  · intro h; simp [plan_critic_run, h]
  · intro m h; simp [plan_critic_run, h]
  · unfold handle_scroll_committed
    by_cases hs : (plan_critic_run env.fs path).score < 80
    · simp only [hs, if_true]
      split <;> simp [hs]
    · simp [hs]

/-- Witness for C5 at a filesystem where the document is absent. -/
theorem critic_score_range_and_threshold_witness :
    (plan_critic_run trivialEnv.fs "plan.md").score = 0 ∧
    (plan_critic_run trivialEnv.fs "plan.md").issues.length = 1 :=
  (critic_score_range_and_threshold trivialEnv "plan.md").2.1 rfl

/-- C6: in a `cycle_end` run the Notifier is invoked at most once per
problem category — a (truthy) last error yields exactly one call,
with priority 1 (high), and the Rule Auditor is not run; violations in
changed files yield exactly one aggregated call; with neither problem
no call is made. -/
theorem cycle_end_notification_discipline :
    ∀ env : AgentEnv,
      (pyTruthy (find_last_error env.logTail.data) = true →
        (handle_cycle_end env).pagerCalls.map (fun c => c.1.priority) = [1]
        ∧ (handle_cycle_end env).auditCalls = [])
      ∧ (pyTruthy (find_last_error env.logTail.data) = false →
          env.changedFiles.isEmpty = false →
          creed_audit_run env.fs env.changedFiles ≠ [] →
          (handle_cycle_end env).pagerCalls.map (fun c => c.1.priority) = [1])
      ∧ (pyTruthy (find_last_error env.logTail.data) = false →
          (env.changedFiles.isEmpty = true ∨ creed_audit_run env.fs env.changedFiles = []) →
          (handle_cycle_end env).pagerCalls = []) := by
  intro env
  refine ⟨?_, ?_, ?_⟩
  · intro h
    unfold handle_cycle_end
    simp only [h, if_true]
    split <;> simp
  · intro h hcf hv
    unfold handle_cycle_end
    simp only [h, Bool.false_eq_true, if_false, hcf]
    rw [if_neg (by simp [List.isEmpty_iff, hv])]
    split <;> simp
  · intro h hcase
    unfold handle_cycle_end
    simp only [h, Bool.false_eq_true, if_false]
    rcases hcase with hcf | hv
    · simp [hcf]
    · split
      · simp
      · simp [hv]

/-- Witness for C6 at a log whose tail ends in a fresh error. -/
theorem cycle_end_notification_discipline_witness :
    (handle_cycle_end logErrorEnv).pagerCalls.map (fun c => c.1.priority) = [1] ∧
    (handle_cycle_end logErrorEnv).auditCalls = [] :=
  (cycle_end_notification_discipline logErrorEnv).1 (by decide)

/-- The paged flag of the cycle-end handler equals delivery of some call
it made. -/
lemma paged_cycle_end (env : AgentEnv) :
    (handle_cycle_end env).paged =
      (handle_cycle_end env).pagerCalls.any (fun c => c.2.status == "success") := by
  simp only [handle_cycle_end]
  split
  · split <;> rename_i hres <;> simp [hres]
  · split
    · rfl
    · split
      · rfl
      · split <;> rename_i hres <;> simp [hres]

/-- The paged flag of the scroll-committed handler equals delivery of
some call it made. -/
lemma paged_scroll_committed (env : AgentEnv) (p : String) :
    (handle_scroll_committed env p).paged =
      (handle_scroll_committed env p).pagerCalls.any (fun c => c.2.status == "success") := by
  simp only [handle_scroll_committed]
  split
  · split <;> rename_i hres <;> simp [hres]
  · rfl

/-- The paged flag of the manual-check handler equals delivery of some
call it made. -/
lemma paged_manual_check (env : AgentEnv) :
    (handle_manual_check env).paged =
      (handle_manual_check env).pagerCalls.any (fun c => c.2.status == "success") := by
  simp only [handle_manual_check]
  split
  · simp [List.any_append, paged_cycle_end, paged_scroll_committed]
  · simp [paged_cycle_end]

/-- C2: the report's `paged` field is true exactly when some Notifier
call made during the run reported successful delivery; and in
`manual_check` it is the disjunction of the cycle-end and
scroll-committed sub-results. -/
theorem paged_iff_some_delivery :
    ∀ (env : AgentEnv) (inp : WatchInput),
      (agent_run env inp).paged =
        (agentRunT env inp).pagerCalls.any (fun c => c.2.status == "success")
      ∧ (inp.event = "manual_check" → pyTruthy env.latestScroll = true →
          (agent_run env inp).paged =
            ((handle_cycle_end env).paged ||
              (handle_scroll_committed env (env.latestScroll.getD "")).paged))
      ∧ (inp.event = "manual_check" → pyTruthy env.latestScroll = false →
          (agent_run env inp).paged = (handle_cycle_end env).paged) := by
  intro env inp
  refine ⟨?_, ?_, ?_⟩
  · show (agentRunT env inp).paged = _
    unfold agentRunT
    split
    · exact paged_cycle_end env
    · split
      · exact paged_scroll_committed env _
      · split
        · exact paged_manual_check env
        · rfl
  · intro he hl
    show (agentRunT env inp).paged = _
    unfold agentRunT
    rw [if_neg (by simp [he]), if_neg (by simp [he]), if_pos he]
    unfold handle_manual_check
    simp [hl]
  · intro he hl
    show (agentRunT env inp).paged = _
    unfold agentRunT
    rw [if_neg (by simp [he]), if_neg (by simp [he]), if_pos he]
    unfold handle_manual_check
    simp [hl]

/-- Witness for C2 at a concrete `manual_check` run with a latest scroll
present. -/
theorem paged_iff_some_delivery_witness :
    (agent_run manualEnv { event := "manual_check", scroll_path := none }).paged =
      ((handle_cycle_end manualEnv).paged ||
        (handle_scroll_committed manualEnv (manualEnv.latestScroll.getD "")).paged) :=
  (paged_iff_some_delivery manualEnv { event := "manual_check", scroll_path := none }).2.1
    rfl (by decide)

/-- C9 counterexample: on an empty log (no timestamps at all) the elapsed
field is `"Unknown (insufficient timestamps)"` — with a capital `U` —
and not the string `"unknown (insufficient timestamps)"` the claim
states. -/
theorem elapsed_insufficient_capitalization_counterexample :
    (log_sentinel_run "").elapsed = "Unknown (insufficient timestamps)"
    ∧ (log_sentinel_run "").elapsed ≠ "unknown (insufficient timestamps)" := by
  constructor
  · rfl
  · decide

/-- C9 (amended): with fewer than two timestamp matches the elapsed field
is `"Unknown (insufficient timestamps)"`; with at least two, if the
first or the last match fails to parse as a real datetime, it is
`"Unknown (invalid timestamps)"`; no fault escapes (the function is
total). -/
theorem elapsed_unknown_branches :
    ∀ t : String,
      ((findTimestamps t.data).length < 2 →
        (log_sentinel_run t).elapsed = "Unknown (insufficient timestamps)")
      ∧ (∀ h l, 2 ≤ (findTimestamps t.data).length →
          (findTimestamps t.data).head? = some h →
          (findTimestamps t.data).getLast? = some l →
          (strptimeTs h = none ∨ strptimeTs l = none) →
          (log_sentinel_run t).elapsed = "Unknown (invalid timestamps)") := by
  intro t
  have he : (log_sentinel_run t).elapsed = compute_runtime t.data := rfl
  constructor
  · intro hlen
    rw [he]
    unfold compute_runtime
    rw [if_pos hlen]
  · intro h l hlen hh hl hnone
    rw [he]
    unfold compute_runtime
    rw [if_neg (by omega)]
    have hhd : (findTimestamps t.data).headD [] = h := by
      rw [List.headD_eq_head?, hh]; rfl
    have hld : (findTimestamps t.data).getLastD [] = l := by
      rw [List.getLastD_eq_getLast?, hl]; rfl
    rw [hhd, hld]
    rcases hnone with hn | hn
    · rw [hn]
    · cases hsf : strptimeTs h with
      | none => rfl
      | some da => rw [hn]

/-- A log whose two timestamps match the shape but name an impossible
date (February 31st). -/
def invalidTsLog : String := "2024-02-31 10:00:00 then 2024-02-31 10:00:05"

/-- Witness for C9 at the empty log and at `invalidTsLog`. -/
theorem elapsed_unknown_branches_witness :
    (log_sentinel_run "").elapsed = "Unknown (insufficient timestamps)"
    ∧ (log_sentinel_run invalidTsLog).elapsed = "Unknown (invalid timestamps)" :=
  ⟨(elapsed_unknown_branches "").1 (by decide),
   (elapsed_unknown_branches invalidTsLog).2
     ("2024-02-31 10:00:00".data) ("2024-02-31 10:00:05".data)
     (by decide) (by decide) (by decide) (Or.inl (by decide))⟩

/-- The last element of a concatenation of segments is the last element
of the last non-empty segment. -/
lemma getLast?_flatMap_eq {α β : Type} (l : List α) (f : α → List β) :
    (l.flatMap f).getLast? =
      ((l.filter (fun a => !(f a).isEmpty)).getLast?).bind (fun a => (f a).getLast?) := by
  induction l using List.reverseRecOn with
  | nil => simp
  | append_singleton xs a ih =>
    by_cases h : (f a).isEmpty
    · have hfa : f a = [] := by simpa [List.isEmpty_iff] using h
      simp [List.flatMap_append, List.filter_append, hfa, h, ih]
    · have hfa : f a ≠ [] := by simpa [List.isEmpty_iff] using h
      rw [List.flatMap_append, List.filter_append]
      simp only [List.flatMap_cons, List.flatMap_nil, List.append_nil, h, Bool.not_false,
        List.filter_cons_of_pos, List.filter_nil]
      rw [List.getLast?_append_of_ne_nil _ hfa, List.getLast?_append_of_ne_nil _ (by simp)]
      simp

/-- C3 (amended): whenever at least one error pattern matches, the
returned `last_error` is the last document-order match of the last
pattern (in the fixed source order Traceback, RuntimeError,
AssertionError, Error) that has any match — the collection is
pattern-major, not latest-end-position — and the value is the exact
match text, not truncated (the 500-character truncation applies only
to the summary line). -/
theorem last_error_is_pattern_major :
    ∀ (t : String) (p : List Char),
      (errorPrefixes.filter (fun q => !(matchesOf q t.data).isEmpty)).getLast? = some p →
      (log_sentinel_run t).last_error =
        ((matchesOf p t.data).getLast?).map (matchStr t.data) := by
  intro t p hp
  have h1 : (log_sentinel_run t).last_error = find_last_error t.data := rfl
  rw [h1]
  unfold find_last_error errorsOf
  rw [getLast?_flatMap_eq]
  have hfilter :
      errorPrefixes.filter (fun q => !((matchesOf q t.data).map (matchStr t.data)).isEmpty) =
        errorPrefixes.filter (fun q => !(matchesOf q t.data).isEmpty) := by
    apply List.filter_congr
    intro q _
    cases matchesOf q t.data <;> simp
  rw [hfilter, hp]
  simp [List.getLast?_map]

/-- Witness for C3 at a log with two `Error:` blocks. -/
theorem last_error_is_pattern_major_witness :
    (log_sentinel_run "Error: A\n\nError: B").last_error =
      ((matchesOf ("Error:".data) ("Error: A\n\nError: B" : String).data).getLast?).map
        (matchStr ("Error: A\n\nError: B" : String).data) :=
  last_error_is_pattern_major "Error: A\n\nError: B" ("Error:".data) (by decide)

/-- A log tail whose `Error:` block is 501 characters long and is
followed, after a blank line, by a Traceback block reaching the end of
the text. -/
def longErrorLog : List Char :=
  "Error: ".data ++ List.replicate 494 'x' ++
    "\n\nTraceback (most recent call last):\nboom".data

/-- C3 counterexample: on `longErrorLog` the returned `last_error` is the
501-character `Error:` block — longer than 500, so not truncated as
the claim states — even though the Traceback pattern has a match
ending at position 542, the very end of the text, strictly after the
end of the returned match; the claim's latest-end-position selection
is violated as well. -/
theorem last_error_counterexample :
    (find_last_error longErrorLog).map String.length = some 501
    ∧ matchesOf ("Traceback (most recent call last):".data) longErrorLog = [(503, 542)]
    ∧ longErrorLog.length = 542 := by
  refine ⟨by decide, by decide, by decide⟩

/-- The records one rule contributes to an audit of one file: one record
per qualifying line, in ascending line order (the scan order). -/
def auditScanOrder (fp content : String) (pr : String × (List Char → Bool)) :
    List ViolationRecord :=
  ((splitLines content).enum.filter (fun il => pr.2 il.2 && !isCommentLine il.2)).map
    (fun il => ⟨fp, il.1 + 1, pr.1, format_violation fp (il.1 + 1) il.2 pr.1⟩)

/-- The rule-major normal form of an audit of one file: the rules in
table order, each contributing its line-ascending records. -/
def auditScanSpec (fp content : String) : List ViolationRecord :=
  forbidden_patterns.flatMap (auditScanOrder fp content)

/-- The position of a rule identifier in the `forbidden_patterns` table. -/
def ruleRank (nm : String) : Nat :=
  (forbidden_patterns.map Prod.fst).indexOf nm

/-- Strict scan order on records: rule-major (by table position), then
line-ascending within a rule. -/
def recordScanLt (a b : ViolationRecord) : Prop :=
  ruleRank a.ruleId < ruleRank b.ruleId ∨ (a.ruleId = b.ruleId ∧ a.line < b.line)

/-- A fold that conditionally appends singletons is the filter-map of its
input appended to the accumulator. -/
lemma foldl_if_append {α β : Type} (p : α → Bool) (f : α → β) :
    ∀ (l : List α) (acc : List β),
      l.foldl (fun a x => if p x then a ++ [f x] else a) acc = acc ++ (l.filter p).map f := by
  intro l
  induction l with
  | nil => intro acc; simp
  | cons x xs ih =>
    intro acc
    by_cases h : p x <;>
      simp [List.foldl_cons, h, ih, List.filter_cons]

/-- The nested audit fold over the rule table accumulates the rule-major
segments. -/
lemma checkRecords_foldl (fp content : String) :
    ∀ (pats : List (String × (List Char → Bool))) (acc : List ViolationRecord),
      pats.foldl
        (fun acc pr =>
          (splitLines content).enum.foldl
            (fun acc2 il =>
              if pr.2 il.2 && !isCommentLine il.2 then
                acc2 ++ [⟨fp, il.1 + 1, pr.1, format_violation fp (il.1 + 1) il.2 pr.1⟩]
              else acc2)
            acc)
        acc
      = acc ++ pats.flatMap (auditScanOrder fp content) := by
  intro pats
  induction pats with
  | nil => intro acc; simp
  | cons pr rest ih =>
    intro acc
    simp only [List.foldl_cons, List.flatMap_cons]
    rw [foldl_if_append, ih, auditScanOrder, List.append_assoc]

/-- `checkRecords` is its rule-major normal form. -/
lemma checkRecords_eq_spec (fp content : String) :
    checkRecords fp content = auditScanSpec fp content := by
  unfold checkRecords auditScanSpec
  simpa using checkRecords_foldl fp content forbidden_patterns []

/-- The string version of the nested audit fold. -/
lemma check_violations_foldl (fp content : String) :
    ∀ (pats : List (String × (List Char → Bool))) (acc : List String),
      pats.foldl
        (fun acc pr =>
          (splitLines content).enum.foldl
            (fun acc2 il =>
              if pr.2 il.2 && !isCommentLine il.2 then
                acc2 ++ [format_violation fp (il.1 + 1) il.2 pr.1]
              else acc2)
            acc)
        acc
      = acc ++ pats.flatMap (fun pr => (auditScanOrder fp content pr).map ViolationRecord.message) := by
  intro pats
  induction pats with
  | nil => intro acc; simp
  | cons pr rest ih =>
    intro acc
    simp only [List.foldl_cons, List.flatMap_cons]
    rw [foldl_if_append, ih, List.append_assoc]
    simp [auditScanOrder, List.map_map, Function.comp]

/-- The violation strings are the messages of the violation records. -/
lemma check_violations_eq_map_message (fp content : String) :
    check_violations fp content = (checkRecords fp content).map ViolationRecord.message := by
  unfold check_violations
  rw [checkRecords_eq_spec]
  unfold auditScanSpec
  have h := check_violations_foldl fp content forbidden_patterns []
  simpa [List.map_flatMap] using h

/-- The indices of an enumerated list increase strictly. -/
lemma pairwise_enum_fst {α : Type} (l : List α) :
    l.enum.Pairwise (fun a b => a.1 < b.1) := by
  have h : List.Pairwise (· < ·) (l.enum.map Prod.fst) := by
    rw [List.enum_map_fst]
    exact List.pairwise_lt_range l.length
  exact (List.pairwise_map.mp h)

/-- Within one rule's segment, line numbers increase strictly. -/
lemma auditScanOrder_pairwise (fp content : String) (pr : String × (List Char → Bool)) :
    (auditScanOrder fp content pr).Pairwise (fun a b => a.line < b.line) := by
  unfold auditScanOrder
  apply List.pairwise_map.mpr
  have h2 := (pairwise_enum_fst (splitLines content)).filter
    (fun il => pr.2 il.2 && !isCommentLine il.2)
  exact h2.imp (fun h => Nat.succ_lt_succ h)

/-- Every record of a rule's segment carries that rule's identifier. -/
lemma auditScanOrder_ruleId (fp content : String) (pr : String × (List Char → Bool)) :
    ∀ r ∈ auditScanOrder fp content pr, r.ruleId = pr.1 := by
  intro r hr
  unfold auditScanOrder at hr
  obtain ⟨il, _, rfl⟩ := List.mem_map.mp hr
  rfl

/-- Concatenating rule segments in an order of strictly increasing rule
rank yields a list that is strictly ordered in the record scan order. -/
lemma flatMap_pairwise_ranks (fp content : String) :
    ∀ (pats : List (String × (List Char → Bool))),
      pats.Pairwise (fun pr qr => ruleRank pr.1 < ruleRank qr.1) →
      (pats.flatMap (auditScanOrder fp content)).Pairwise recordScanLt := by
  intro pats hp
  induction pats with
  | nil => simp
  | cons pr rest ih =>
    rw [List.flatMap_cons]
    obtain ⟨hhead, htail⟩ := List.pairwise_cons.mp hp
    apply List.pairwise_append.mpr
    refine ⟨?_, ih htail, ?_⟩
    · apply (auditScanOrder_pairwise fp content pr).imp_of_mem
      intro a b ha hb hline
      exact Or.inr ⟨by rw [auditScanOrder_ruleId fp content pr a ha,
        auditScanOrder_ruleId fp content pr b hb], hline⟩
    · intro a ha b hb
      obtain ⟨qr, hqr, hbq⟩ := List.mem_flatMap.mp hb
      left
      rw [auditScanOrder_ruleId fp content pr a ha,
        auditScanOrder_ruleId fp content qr b hbq]
      exact hhead qr hqr

/-- The nine rule identifiers occupy strictly increasing positions in
the table. -/
lemma forbidden_patterns_ranks :
    forbidden_patterns.Pairwise (fun pr qr => ruleRank pr.1 < ruleRank qr.1) := by
  unfold forbidden_patterns
  refine List.Pairwise.cons ?_ (List.Pairwise.cons ?_ (List.Pairwise.cons ?_
    (List.Pairwise.cons ?_ (List.Pairwise.cons ?_ (List.Pairwise.cons ?_
    (List.Pairwise.cons ?_ (List.Pairwise.cons ?_ (List.Pairwise.cons ?_
    List.Pairwise.nil)))))))) <;>
    intro x hx <;> fin_cases hx <;> decide

/-- C7: auditing the same content twice yields the same record sequence
(the scan is a pure function of the content); the violation strings
are the records' messages; the records are exactly the rule-major,
line-ascending scan (one record per qualifying (rule, line) pair); and
the sequence is strictly ordered in the scan order. -/
theorem audit_idempotent_and_scan_ordered :
    ∀ (fp content : String),
      checkRecords fp content = checkRecords fp content
      ∧ check_violations fp content = (checkRecords fp content).map ViolationRecord.message
      ∧ checkRecords fp content = auditScanSpec fp content
      ∧ (checkRecords fp content).Pairwise recordScanLt := by
  intro fp content
  refine ⟨rfl, check_violations_eq_map_message fp content, checkRecords_eq_spec fp content, ?_⟩
  rw [checkRecords_eq_spec]
  exact flatMap_pairwise_ranks fp content forbidden_patterns forbidden_patterns_ranks

end Shihan
